import Mathlib

/-!
# Verification of the Weibo post pipeline (`src/main.py`)

A shallow embedding of the pure core of `main.py`: timestamp parsing
(`parse_weibo_time`), the recency/media filter in `process_keyword`,
configuration loading (`load_config`), the keyword classification table
(`load_keyword_classifications`), dataframe cleanup and sorting
(`clean_and_reorder_dataframe`, `sort_values`), and the per-unit
orchestration loops of `process_keyword` and `main`.

Python dictionaries are modelled as association lists observed through
`dictGet`; Python `datetime` values are modelled as an integer count of
seconds (an `Instant`), which matches `datetime` comparison and
`timedelta` arithmetic on the valid datetimes the program builds.
External collaborators (the network fetcher and the ML scorer) are
parameters of the orchestration functions.
-/

namespace Weibo

/-- Python scalar values as they appear in config files and post rows. -/
inductive PyVal where
  | int (n : Int)
  | str (s : String)
  | bool (b : Bool)
  | noneVal
deriving DecidableEq, Repr

/-- Dictionary lookup (`d[k]` / `d.get(k)`): value at the key, if present. -/
def dictGet {α : Type} (m : List (String × α)) (k : String) : Option α :=
  (m.find? (fun p => p.1 == k)).map (fun p => p.2)

/-- Dictionary assignment `d[k] = v`: overwrite in place, else append. -/
def dictInsert {α : Type} (m : List (String × α)) (k : String) (v : α) :
    List (String × α) :=
  if m.any (fun p => p.1 == k) then
    m.map (fun p => if p.1 == k then (k, v) else p)
  else
    m ++ [(k, v)]

/-- `d.get(k, dflt)` with a default. -/
def dictGetD {α : Type} (m : List (String × α)) (k : String) (dflt : α) : α :=
  match dictGet m k with
  | some v => v
  | none => dflt

/-! ## Instants

A Python `datetime` is modelled by its count of seconds since the Unix
epoch (microseconds are always zeroed by the code paths we model).
`datetime` comparison and `timedelta` addition/subtraction coincide with
integer comparison and arithmetic under this view. -/

/-- A point in time: seconds since 1970-01-01 00:00:00. -/
abbrev Instant := Int

/-- Days since the epoch of the civil date `y-m-d` (proleptic Gregorian),
mirroring how Python's `datetime` maps a civil date to the timeline. -/
def daysFromCivil (y m d : Int) : Int :=
  let y2 := if m ≤ 2 then y - 1 else y
  let era := Int.fdiv y2 400
  let yoe := y2 - era * 400
  let mp := Int.fmod (m + 9) 12
  let doy := Int.fdiv (153 * mp + 2) 5 + d - 1
  let doe := yoe * 365 + Int.fdiv yoe 4 - Int.fdiv yoe 100 + doy
  era * 146097 + doe - 719468

/-- Civil date `(y, m, d)` of a day count since the epoch (inverse of
`daysFromCivil` on valid dates). -/
def civilFromDays (z0 : Int) : Int × Int × Int :=
  let z := z0 + 719468
  let era := Int.fdiv z 146097
  let doe := z - era * 146097
  let yoe := Int.fdiv (doe - Int.fdiv doe 1460 + Int.fdiv doe 36524 - Int.fdiv doe 146096) 365
  let y := yoe + era * 400
  let doy := doe - (365 * yoe + Int.fdiv yoe 4 - Int.fdiv yoe 100)
  let mp := Int.fdiv (5 * doy + 2) 153
  let d := doy - Int.fdiv (153 * mp + 2) 5 + 1
  let m := mp + (if mp < 10 then 3 else -9)
  (if m ≤ 2 then y + 1 else y, m, d)

/-- The `datetime(y, m, d, hh, mi)` constructor, as an instant. -/
def mkInstant (y m d hh mi : Int) : Instant :=
  daysFromCivil y m d * 86400 + hh * 3600 + mi * 60

/-- `now.year` of an instant. -/
def yearOf (t : Instant) : Int :=
  (civilFromDays (Int.fdiv t 86400)).1

/-- `now.replace(hour=hh, minute=mi, second=0, microsecond=0)`:
keep the civil day of `t`, set the time of day. -/
def replaceTime (t : Instant) (hh mi : Int) : Instant :=
  Int.fdiv t 86400 * 86400 + hh * 3600 + mi * 60

/-! ## String helpers

Implemented over `String.data` (a `List Char`) so that every operation
is structurally recursive and evaluates inside the kernel. -/

/-- Whitespace as stripped by Python `str.strip()` (the ASCII cases that
occur in the program's inputs). -/
def isPyWs (c : Char) : Bool :=
  c == ' ' || c == '\t' || c == '\n' || c == '\r'

/-- Python `str.strip()`. -/
def pyStrip (s : String) : String :=
  String.mk (((s.data.dropWhile isPyWs).reverse.dropWhile isPyWs).reverse)

/-- Substring test on character lists. -/
def strContainsAux (pat : List Char) : List Char → Bool
  | [] => pat.isPrefixOf ([] : List Char)
  | c :: rest => pat.isPrefixOf (c :: rest) || strContainsAux pat rest

/-- Python `pat in s` (substring containment). -/
def strContains (s pat : String) : Bool :=
  strContainsAux pat.data s.data

/-- Replace every occurrence of `pat` (non-empty in all call sites) by
`rep`, scanning left to right; `fuel` bounds the scan by the input
length, which suffices because each step consumes at least one
character. -/
def strReplaceAux (pat rep : List Char) : Nat → List Char → List Char
  | 0, s => s
  | _ + 1, [] => []
  | fuel + 1, c :: rest =>
    if pat ≠ [] && pat.isPrefixOf (c :: rest) then
      rep ++ strReplaceAux pat rep fuel ((c :: rest).drop pat.length)
    else
      c :: strReplaceAux pat rep fuel rest

/-- Python `s.replace(pat, rep)`. -/
def strReplace (s pat rep : String) : String :=
  String.mk (strReplaceAux pat.data rep.data s.data.length s.data)

/-- Digit run to a number. -/
def natOfDigits (ds : List Char) : Nat :=
  ds.foldl (fun a c => a * 10 + (c.toNat - ('0').toNat)) 0

/-- A non-empty all-digit run, as a number. -/
def natOfDigitsChecked (ds : List Char) : Option Nat :=
  if ds ≠ [] && ds.all Char.isDigit then some (natOfDigits ds) else none

/-- Python `int(s)`: optional surrounding whitespace, optional sign, a
non-empty digit run; anything else raises `ValueError` (here: `none`). -/
def parseIntOpt (s : String) : Option Int :=
  match (pyStrip s).data with
  | '+' :: ds => (natOfDigitsChecked ds).map (fun n => (n : Int))
  | '-' :: ds => (natOfDigitsChecked ds).map (fun n => -(n : Int))
  | ds => (natOfDigitsChecked ds).map (fun n => (n : Int))

/-- Split a character list at a separator character. -/
def splitOnChar (sep : Char) : List Char → List (List Char)
  | [] => [[]]
  | c :: rest =>
    let r := splitOnChar sep rest
    if c == sep then [] :: r
    else
      match r with
      | [] => [[c]]
      | t :: ts => (c :: t) :: ts

/-- A field of 1 or 2 digits whose value lies in `[lo, hi]`, as matched
by the `strptime` directives `%H`, `%M`, `%m`, `%d`. -/
def parseField2 (lo hi : Nat) (ds : List Char) : Option Nat :=
  if ds.length == 1 || ds.length == 2 then
    match natOfDigitsChecked ds with
    | some n => if lo ≤ n && n ≤ hi then some n else none
    | none => none
  else none

/-- `datetime.strptime(s, '%H:%M')`: the hour and minute, or a raised
`ValueError` (`none`). -/
def strptimeHM (s : String) : Option (Int × Int) :=
  match splitOnChar ':' s.data with
  | [h, m] =>
    match parseField2 0 23 h, parseField2 0 59 m with
    | some hh, some mi => some ((hh : Int), (mi : Int))
    | _, _ => none
  | _ => none

/-- Day count of month `m` in year `y` (Gregorian), used by the
`datetime` constructor's day-of-month validation. -/
def daysInMonth (y m : Nat) : Nat :=
  if m == 2 then
    if y % 4 == 0 && (y % 100 != 0 || y % 400 == 0) then 29 else 28
  else if m == 4 || m == 6 || m == 9 || m == 11 then 30
  else 31

/-- `datetime.strptime(s, '%Y-%m-%d %H:%M')`: `%Y` is exactly four
digits, `%m`/`%d`/`%H`/`%M` are one or two digits in range, the day must
exist in the month, and no input may remain. -/
def strptimeYMDHM (s : String) : Option Instant :=
  match splitOnChar ' ' s.data with
  | [datePart, timePart] =>
    match splitOnChar '-' datePart with
    | [ys, ms, ds] =>
      if ys.length == 4 then
        match natOfDigitsChecked ys, parseField2 1 12 ms, parseField2 1 31 ds with
        | some y, some m, some d =>
          if d ≤ daysInMonth y m then
            match strptimeHM (String.mk timePart) with
            | some (hh, mi) => some (mkInstant (y : Int) (m : Int) (d : Int) hh mi)
            | none => none
          else none
        | _, _, _ => none
      else none
    | _ => none
  | _ => none

/-! ## `parse_weibo_time` (src/main.py lines 167-202) -/

/-- `parse_weibo_time(time_str, now)`: parse a Weibo timestamp string
relative to the reference instant `now`.  Recognizes, in order:
`N分钟前`, `N小时前`, `今天 HH:MM`, `昨天 HH:MM`, and the two
fixed-width absolute forms `MM-DD HH:MM` and `YYYY-MM-DD HH:MM`.
Any failure inside a branch is swallowed by the surrounding
`try`/`except` and yields `none`. -/
def parse_weibo_time (time_str : String) (now : Instant) : Option Instant :=
  let ts := pyStrip time_str
  if ts = "" ∨ ts = "未知时间" then none
  else if strContains ts "分钟前" then
    match parseIntOpt (strReplace ts "分钟前" "") with
    | some minutes => some (now - minutes * 60)
    | none => none
  else if strContains ts "小时前" then
    match parseIntOpt (strReplace ts "小时前" "") with
    | some hours => some (now - hours * 3600)
    | none => none
  else if strContains ts "今天" then
    match strptimeHM (pyStrip (strReplace ts "今天" "")) with
    | some (hh, mi) => some (replaceTime now hh mi)
    | none => none
  else if strContains ts "昨天" then
    match strptimeHM (pyStrip (strReplace ts "昨天" "")) with
    | some (hh, mi) => some (replaceTime now hh mi - 86400)
    | none => none
  else if strContains ts "-" then
    if ts.length = 11 then
      strptimeYMDHM (String.mk ((toString (yearOf now)).data ++ ('-') :: ts.data))
    else if ts.length = 16 then
      strptimeYMDHM ts
    else none
  else none

example : parse_weibo_time "5分钟前" (mkInstant 2024 5 23 12 0) =
    some (mkInstant 2024 5 23 11 55) := by decide

example : parse_weibo_time "未知时间" 0 = none := by decide

example : parse_weibo_time "3小时前" 100000 = some (100000 - 10800) := by decide

example : parse_weibo_time "今天 12:34" (mkInstant 2024 5 23 7 0) =
    some (mkInstant 2024 5 23 12 34) := by decide

example : parse_weibo_time "2024-05-23 12:34" 0 = some (mkInstant 2024 5 23 12 34) := by decide

example : parse_weibo_time "05-23 12:34" (mkInstant 2024 1 1 0 0) =
    some (mkInstant 2024 5 23 12 34) := by decide

example : parse_weibo_time "昨天 01:00" (mkInstant 2024 5 23 7 0) =
    some (mkInstant 2024 5 22 1 0) := by decide

example : parse_weibo_time "x分钟前" 0 = none := by decide

/-! ## Posts and the recency/media filter (src/main.py lines 227-241) -/

/-- One post record; the fields read or written by the pipeline under
verification.  `wtype` is the `'type'` key set by `process_keyword`. -/
structure Post where
  weibo_id : String := ""
  user_name : String := ""
  content : String := ""
  publish_time : String := ""
  reposts_count : Int := 0
  comments_count : Int := 0
  attitudes_count : Int := 0
  has_images : Bool := false
  has_videos : Bool := false
  user_id : String := ""
  keyword : String := ""
  wtype : String := ""
deriving DecidableEq, Repr

/-- The loop body of the recency/media filter: keep `weibo` when its
parsed publish time is non-`None`, at least `now_dt - timedelta(days=2)`,
and it has an image or a video. -/
def recencyStep (now_dt : Instant) (acc : List Post) (weibo : Post) : List Post :=
  match parse_weibo_time weibo.publish_time now_dt with
  | none => acc
  | some dt =>
    if decide (now_dt - 2 * 86400 ≤ dt) && (weibo.has_images || weibo.has_videos) then
      acc ++ [weibo]
    else acc

/-- The `filtered_by_time_and_media` loop of `process_keyword`. -/
def filter_by_time_and_media (now_dt : Instant) (results : List Post) : List Post :=
  results.foldl (recencyStep now_dt) []

/-! ## Configuration (src/main.py lines 30-70) -/

/-- A configuration dictionary, as parsed from `config.json`. -/
abbrev Config := List (String × PyVal)

/-- The `default_config` literal of `load_config`. -/
def default_config : Config :=
  [("cookie", .str ""),
   ("default_pages", .int 5),
   ("min_score", .int 80),
   ("min_likes", .int 500),
   ("download_media", .bool false),
   ("max_retries", .int 3),
   ("retry_delay", .int 5),
   ("thread_pool_size", .int 4),
   ("proxy", .noneVal)]

/-- The repair loop of `load_config`: for each default key absent from
the loaded config, insert the default value. -/
def fillDefaults (c : Config) : Config :=
  default_config.foldl
    (fun cfg kv => if (dictGet cfg kv.1).isSome then cfg else dictInsert cfg kv.1 kv.2) c

/-- The state of `config.json` on disk when `load_config` runs. -/
inductive FileState where
  | absent
  | corrupt
  | valid (cfg : Config)

/-- `load_config()`: the returned configuration together with the list
of configurations written back to `config.json` during the call.  An
existing parseable file is repaired in memory only; a missing file
causes the defaults to be written; any exception (unparseable file)
falls back to the defaults without writing. -/
def load_config : FileState → Config × List Config
  | .valid c => (fillDefaults c, [])
  | .absent => (default_config, [default_config])
  | .corrupt => (default_config, [])

/-- `config[k]`: the value, or a raised `KeyError`. -/
def cfgItem (c : Config) (k : String) : Except String PyVal :=
  match dictGet c k with
  | some v => .ok v
  | none => .error ("KeyError: " ++ k)

/-- The four threshold arguments of the `ml_analyzer.analyze_weibos`
call in `process_keyword`: `config["min_score"]` and
`config["min_likes"]` are plain lookups (raising `KeyError` when
absent); `min_comments` and `min_forwards` use a containment test with
the fallback `0`. -/
def analyze_thresholds (c : Config) : Except String (PyVal × PyVal × PyVal × PyVal) := do
  let ms ← cfgItem c "min_score"
  let ml ← cfgItem c "min_likes"
  let mc := match dictGet c "min_comments" with
    | some v => v
    | none => .int 0
  let mf := match dictGet c "min_forwards" with
    | some v => v
    | none => .int 0
  pure (ms, ml, mc, mf)

/-! ## Keyword classifications (src/main.py lines 307-333) -/

/-- The table-to-map loop of `load_keyword_classifications`: for each
row `(keyword, classification)` of the table, in order, run the dict
assignment `keyword_to_type[keyword] = classification`. -/
def load_keyword_classifications (rows : List (String × String)) :
    List (String × String) :=
  rows.foldl (fun m r => dictInsert m r.1 r.2) []

example : dictGet (load_keyword_classifications [("a", "x"), ("b", "z"), ("a", "y")]) "a"
    = some "y" := by decide

/-! ## DataFrames (src/main.py lines 335-371, 281-286, 461-467)

A `pandas` DataFrame is modelled as an ordered column list together
with its rows; each row is the underlying record dictionary. -/

/-- One DataFrame row: a record dictionary. -/
abbrev Row := List (String × PyVal)

/-- A DataFrame: ordered columns plus rows. -/
structure DataFrame where
  cols : List String
  rows : List Row
deriving DecidableEq, Repr

/-- `str(x)` on a scalar. -/
def pyValStr : PyVal → String
  | .str s => s
  | .int n => toString n
  | .bool b => if b then "True" else "False"
  | .noneVal => "None"

/-- Cell access with the missing-value placeholder. -/
def rowGetD (r : Row) (k : String) : PyVal :=
  dictGetD r k .noneVal

/-- Column order of `pd.DataFrame(records)`: keys in first-appearance
order across the records. -/
def unionKeys (rows : List Row) : List String :=
  rows.foldl
    (fun acc r => r.foldl (fun a p => if a.contains p.1 then a else a ++ [p.1]) acc) []

/-- `pd.DataFrame(records)`. -/
def pd_DataFrame (rows : List Row) : DataFrame :=
  ⟨unionKeys rows, rows⟩

/-- `df.drop(columns=[c for c in cs if c in df.columns])`. -/
def dfDrop (df : DataFrame) (cs : List String) : DataFrame :=
  ⟨df.cols.filter (fun c => !cs.contains c),
   df.rows.map (fun r => r.filter (fun p => !cs.contains p.1))⟩

/-- `df['post_link'] = df['weibo_id'].apply(lambda x: f"https://weibo.com/detail/{x}")`. -/
def dfAddPostLink (df : DataFrame) : DataFrame :=
  ⟨df.cols ++ ["post_link"],
   df.rows.map (fun r =>
     r ++ [("post_link", .str ("https://weibo.com/detail/" ++ pyValStr (rowGetD r "weibo_id")))])⟩

/-- `re.sub(r'\s+', ' ', str(x)).strip()`: collapse each whitespace run
to one space and trim the ends. -/
def collapseWs (s : String) : String :=
  String.intercalate " " ((s.split (fun c => isPyWs c)).filter (fun t => !t.isEmpty))

/-- `df['content'] = df['content'].apply(...)`: whitespace cleanup of
the content column. -/
def dfCleanContent (df : DataFrame) : DataFrame :=
  ⟨df.cols,
   df.rows.map (fun r =>
     r.map (fun p => if p.1 == "content" then (p.1, .str (collapseWs (pyValStr p.2))) else p))⟩

/-- `df[cs]`: projection onto the chosen columns, in their order. -/
def dfProject (df : DataFrame) (cs : List String) : DataFrame :=
  ⟨cs, df.rows.map (fun r => cs.map (fun c => (c, rowGetD r c)))⟩

/-- The `columns_to_drop` literal of `clean_and_reorder_dataframe`. -/
def columns_to_drop : List String :=
  ["user_id", "image_urls", "local_image_paths", "source"]

/-- The `desired_columns` literal of `clean_and_reorder_dataframe`. -/
def desired_columns : List String :=
  ["keyword", "user_name", "weibo_id", "content", "publish_time",
   "reposts_count", "comments_count", "attitudes_count", "post_link", "content_score"]

/-- Steps 1-3 of `clean_and_reorder_dataframe`: drop the internal
columns, derive `post_link` from `weibo_id` when absent, clean the
content column. -/
def cleanBase (df0 : DataFrame) : DataFrame :=
  let df1 := dfDrop df0 columns_to_drop
  let df2 :=
    if !df1.cols.contains "post_link" && df1.cols.contains "weibo_id" then
      dfAddPostLink df1
    else df1
  if df2.cols.contains "content" then dfCleanContent df2 else df2

/-- The `existing_columns` list of `clean_and_reorder_dataframe`: the
desired columns actually present, in the desired order. -/
def existing_columns (df3 : DataFrame) : List String :=
  desired_columns.filter (fun c => df3.cols.contains c)

/-- `clean_and_reorder_dataframe(df)`: drop the internal columns,
derive `post_link` from `weibo_id` when absent, clean the content
column, and project onto the desired columns that exist.  The body is
total, so its `except` fallback (returning `df` unchanged) is never
taken. -/
def clean_and_reorder_dataframe (df0 : DataFrame) : DataFrame :=
  dfProject (cleanBase df0) (existing_columns (cleanBase df0))

/-- Numeric cell comparison used by the engagement sort. -/
def pyValLt : PyVal → PyVal → Bool
  | .int a, .int b => decide (a < b)
  | _, _ => false

/-- Insert a row into a list sorted descending by the key column. -/
def insertRowDesc (col : String) (r : Row) : List Row → List Row
  | [] => [r]
  | s :: rest =>
    if pyValLt (rowGetD r col) (rowGetD s col) then s :: insertRowDesc col r rest
    else r :: s :: rest

/-- Sort rows descending by the key column.  The library sort behind
`pandas` (`kind='quicksort'`) guarantees a sorted permutation but not
the relative order of rows with equal keys; this model produces one
such sorted arrangement. -/
def sortRowsDesc (col : String) : List Row → List Row
  | [] => []
  | r :: rest => insertRowDesc col r (sortRowsDesc col rest)

/-- `df.sort_values(by=col, ascending=False)`: sort on an existing
column, or raise `KeyError` when `col` is not a column of `df`. -/
def sort_values (df : DataFrame) (col : String) : Except String DataFrame :=
  if df.cols.contains col then
    .ok ⟨df.cols, sortRowsDesc col df.rows⟩
  else
    .error ("KeyError: " ++ col)

/-- Build the row dictionary that the fetcher's post records carry into
`pd.DataFrame(filtered_results)`. -/
def postToRow (w : Post) : Row :=
  [("weibo_id", .str w.weibo_id),
   ("user_name", .str w.user_name),
   ("content", .str w.content),
   ("publish_time", .str w.publish_time),
   ("reposts_count", .int w.reposts_count),
   ("comments_count", .int w.comments_count),
   ("attitudes_count", .int w.attitudes_count),
   ("has_images", .bool w.has_images),
   ("has_videos", .bool w.has_videos),
   ("user_id", .str w.user_id),
   ("keyword", .str w.keyword),
   ("type", .str w.wtype)]

/-! ## `process_keyword` (src/main.py lines 204-305)

The external collaborators are parameters: `fetchK` models
`spider.search_keyword` (which may raise), and `analyze` models
`ml_analyzer.analyze_weibos`, whose result is `none` when the analysis
returned no usable dictionary (falsy result or missing
`"filtered_weibos"` key) and `some filtered` otherwise.  The second
component of the result counts the fetch calls performed, to express
"before any fetch occurs". -/

/-- The `try` body of `process_keyword`: every step that can raise
returns through `Except`.  `.ok none` models the early `return None`
paths; `.ok (some posts)` is the final `return filtered_results`. -/
def process_keyword_body (keyword : String) (cfg : Config)
    (keyword_to_type : List (String × String))
    (fetchK : PyVal → PyVal → Except String (List Post))
    (analyze : List Post → PyVal × PyVal × PyVal × PyVal → Except String (Option (List Post)))
    (now_dt : Instant) : Except String (Option (List Post)) × Nat :=
  let keyword_type := dictGetD keyword_to_type keyword "unknown"
  match cfgItem cfg "default_pages" with
  | .error e => (.error e, 0)
  | .ok pages =>
  match cfgItem cfg "start_page" with
  | .error e => (.error e, 0)
  | .ok sp =>
  match fetchK pages sp with
  | .error e => (.error e, 1)
  | .ok results =>
  if results.isEmpty then (.ok none, 1)
  else
  let filtered := filter_by_time_and_media now_dt results
  if filtered.isEmpty then (.ok none, 1)
  else
  match analyze_thresholds cfg with
  | .error e => (.error e, 1)
  | .ok thresholds =>
  match analyze filtered thresholds with
  | .error e => (.error e, 1)
  | .ok none => (.ok none, 1)
  | .ok (some filtered0) =>
  let filtered_results := filtered0.map (fun w => { w with wtype := keyword_type })
  match cfgItem cfg "download_media" with
  | .error e => (.error e, 1)
  | .ok _dl =>
  let df := clean_and_reorder_dataframe (pd_DataFrame (filtered_results.map postToRow))
  match sort_values df "likes" with
  | .error e => (.error e, 1)
  | .ok _sorted => (.ok (some filtered_results), 1)

/-- `process_keyword` with its catch-all `except` (lines 303-305): any
raised error is caught, logged, and turned into the `None` result. -/
def process_keyword (keyword : String) (cfg : Config)
    (keyword_to_type : List (String × String))
    (fetchK : PyVal → PyVal → Except String (List Post))
    (analyze : List Post → PyVal × PyVal × PyVal × PyVal → Except String (Option (List Post)))
    (now_dt : Instant) : Option (List Post) × Nat :=
  match process_keyword_body keyword cfg keyword_to_type fetchK analyze now_dt with
  | (.error _, n) => (none, n)
  | (.ok r, n) => (r, n)

/-! ## The user/keyword loop of `main` (src/main.py lines 427-455) -/

/-- `user_id = spider._extract_user_id(user_url) or f"user_{i}"` with
`i` counting from 1 (`enumerate(user_urls, 1)`). -/
def user_id_of (extract : String → Option String) (i : Nat) (user_url : String) : String :=
  match extract user_url with
  | some s => s
  | none => "user_" ++ toString (i + 1)

/-- The `try` body of one (user, keyword) unit plus its `except`
handler: a raised fetch error is caught and the loop continues, which
contributes no results; a successful fetch tags every post with the
user id and the keyword. -/
def process_user_keyword (fetch : String → String → Except String (List Post))
    (uid user_url kw : String) : List Post :=
  match fetch user_url kw with
  | .error _ => []
  | .ok rs => rs.map (fun w => { w with user_id := uid, keyword := kw })

/-- The nested per-user, per-keyword accumulation loop of `main`,
building `all_results`. -/
def main_user_keyword_loop (extract : String → Option String)
    (fetch : String → String → Except String (List Post))
    (user_urls keywords : List String) : List Post :=
  (user_urls.enum).foldl
    (fun acc p =>
      let uid := user_id_of extract p.1 p.2
      keywords.foldl (fun acc2 kw => acc2 ++ process_user_keyword fetch uid p.2 kw) acc)
    []

/-- The aggregated-run assembly of `main` (lines 461-467): build the
DataFrame, clean it, sort descending by `attitudes_count`. -/
def assemble_all_results (all_results : List Post) : Except String DataFrame :=
  sort_values (clean_and_reorder_dataframe (pd_DataFrame (all_results.map postToRow)))
    "attitudes_count"

/-! ## Helper lemmas -/

/-- The retention condition of the recency/media filter, stated as in
the specification: a parseable publish time at least 48 hours before the
reference instant (inclusive), together with an image or a video flag. -/
def recencyMediaPred (now_dt : Instant) (w : Post) : Bool :=
  match parse_weibo_time w.publish_time now_dt with
  | none => false
  | some dt => decide (now_dt - 48 * 60 * 60 ≤ dt) && (w.has_images || w.has_videos)

theorem recencyStep_eq (now_dt : Instant) (acc : List Post) (w : Post) :
    recencyStep now_dt acc w = if recencyMediaPred now_dt w then acc ++ [w] else acc := by
  unfold recencyStep recencyMediaPred
  have h48 : (2 : Int) * 86400 = 48 * 60 * 60 := by norm_num
  rw [h48]
  cases parse_weibo_time w.publish_time now_dt with
  | none => simp
  | some dt => rfl

theorem foldl_recencyStep (now_dt : Instant) (posts : List Post) :
    ∀ acc : List Post,
      posts.foldl (recencyStep now_dt) acc = acc ++ posts.filter (recencyMediaPred now_dt) := by
  induction posts with
  | nil => intro acc; simp
  | cons w rest ih =>
    intro acc
    simp only [List.foldl_cons, List.filter_cons]
    rw [recencyStep_eq]
    by_cases h : recencyMediaPred now_dt w
    · simp [h, ih]
    · simp [h, ih]

theorem pyStrip_guard {s pat : String}
    (h : strContains (pyStrip s) pat = true)
    (h1 : strContains "" pat = false) (h2 : strContains "未知时间" pat = false) :
    ¬ (pyStrip s = "" ∨ pyStrip s = "未知时间") := by
  rintro (he | he)
  · rw [he, h1] at h; exact Bool.false_ne_true h
  · rw [he, h2] at h; exact Bool.false_ne_true h

/-! ## Claims C1-C3 -/

/-- Claim C1: for every input batch of posts and reference instant, the
recency/media filter of `process_keyword` produces exactly the
subsequence of posts whose normalized publish time is non-null and at
least 48 hours before the reference instant (inclusive lower bound) and
which carry at least one image or video flag, preserving the relative
input order. -/
theorem C1_recency_media_filter (now_dt : Instant) (posts : List Post) :
    filter_by_time_and_media now_dt posts = posts.filter (recencyMediaPred now_dt)
    ∧ (filter_by_time_and_media now_dt posts).Sublist posts := by
  have h : filter_by_time_and_media now_dt posts = posts.filter (recencyMediaPred now_dt) := by
    unfold filter_by_time_and_media
    simpa using foldl_recencyStep now_dt posts []
  exact ⟨h, h ▸ List.filter_sublist posts⟩

/-- Claim C2: for every relative-offset string `N分钟前` (respectively
`N小时前`) whose numeric component parses as `N`, `parse_weibo_time`
returns the reference instant minus exactly `N` minutes (respectively
`N` hours); in particular `5分钟前` at reference 2024-05-23T12:00:00
yields 2024-05-23T11:55:00. -/
theorem C2_relative_offsets :
    (∀ (now : Instant) (n : Int) (s : String),
      strContains (pyStrip s) "分钟前" = true →
      parseIntOpt (strReplace (pyStrip s) "分钟前" "") = some n →
      parse_weibo_time s now = some (now - n * 60))
    ∧ (∀ (now : Instant) (n : Int) (s : String),
      strContains (pyStrip s) "分钟前" = false →
      strContains (pyStrip s) "小时前" = true →
      parseIntOpt (strReplace (pyStrip s) "小时前" "") = some n →
      parse_weibo_time s now = some (now - n * 3600))
    ∧ parse_weibo_time "5分钟前" (mkInstant 2024 5 23 12 0)
        = some (mkInstant 2024 5 23 11 55) := by
  refine ⟨?_, ?_, by decide⟩
  · intro now n s h1 h2
    simp only [parse_weibo_time]
    rw [if_neg (pyStrip_guard h1 (by decide) (by decide)), if_pos h1, h2]
  · intro now n s h0 h1 h2
    simp only [parse_weibo_time]
    rw [if_neg (pyStrip_guard h1 (by decide) (by decide)),
      if_neg (by rw [h0]; exact Bool.false_ne_true), if_pos h1, h2]

theorem C2_relative_offsets_witness :
    parse_weibo_time "7分钟前" 10000 = some (10000 - 7 * 60)
    ∧ parse_weibo_time "2小时前" 10000 = some (10000 - 2 * 3600) :=
  ⟨C2_relative_offsets.1 10000 7 "7分钟前" (by decide) (by decide),
   C2_relative_offsets.2.1 10000 2 "2小时前" (by decide) (by decide) (by decide)⟩

/-- Claim C3: `parse_weibo_time` never raises to the caller (it is a
total function into `Option`), and it returns `none` whenever the
stripped input is the empty string, the sentinel `未知时间`, a string
matching none of the recognized dispatch patterns, or a string whose
dispatched branch fails to parse it: a relative-offset string with an
unparseable numeric component, a `今天`/`昨天` string with an invalid
`HH:MM` part, a dash string of neither fixed width 11 nor 16, or a
fixed-width dash string rejected by `strptime`.  The disjuncts follow
the dispatch priority of the source, so together they cover every input
the function maps to `None`. -/
theorem C3_unrecognized_yields_none (s : String) (now : Instant)
    (h : pyStrip s = "" ∨ pyStrip s = "未知时间"
       ∨ (strContains (pyStrip s) "分钟前" = false ∧ strContains (pyStrip s) "小时前" = false
          ∧ strContains (pyStrip s) "今天" = false ∧ strContains (pyStrip s) "昨天" = false
          ∧ strContains (pyStrip s) "-" = false)
       ∨ (strContains (pyStrip s) "分钟前" = true
          ∧ parseIntOpt (strReplace (pyStrip s) "分钟前" "") = none)
       ∨ (strContains (pyStrip s) "分钟前" = false
          ∧ strContains (pyStrip s) "小时前" = true
          ∧ parseIntOpt (strReplace (pyStrip s) "小时前" "") = none)
       ∨ (strContains (pyStrip s) "分钟前" = false
          ∧ strContains (pyStrip s) "小时前" = false
          ∧ strContains (pyStrip s) "今天" = true
          ∧ strptimeHM (pyStrip (strReplace (pyStrip s) "今天" "")) = none)
       ∨ (strContains (pyStrip s) "分钟前" = false
          ∧ strContains (pyStrip s) "小时前" = false
          ∧ strContains (pyStrip s) "今天" = false
          ∧ strContains (pyStrip s) "昨天" = true
          ∧ strptimeHM (pyStrip (strReplace (pyStrip s) "昨天" "")) = none)
       ∨ (strContains (pyStrip s) "分钟前" = false
          ∧ strContains (pyStrip s) "小时前" = false
          ∧ strContains (pyStrip s) "今天" = false
          ∧ strContains (pyStrip s) "昨天" = false
          ∧ strContains (pyStrip s) "-" = true
          ∧ (pyStrip s).length ≠ 11 ∧ (pyStrip s).length ≠ 16)
       ∨ (strContains (pyStrip s) "分钟前" = false
          ∧ strContains (pyStrip s) "小时前" = false
          ∧ strContains (pyStrip s) "今天" = false
          ∧ strContains (pyStrip s) "昨天" = false
          ∧ strContains (pyStrip s) "-" = true
          ∧ (pyStrip s).length = 11
          ∧ strptimeYMDHM
              (String.mk ((toString (yearOf now)).data ++ ('-') :: (pyStrip s).data)) = none)
       ∨ (strContains (pyStrip s) "分钟前" = false
          ∧ strContains (pyStrip s) "小时前" = false
          ∧ strContains (pyStrip s) "今天" = false
          ∧ strContains (pyStrip s) "昨天" = false
          ∧ strContains (pyStrip s) "-" = true
          ∧ (pyStrip s).length = 16
          ∧ strptimeYMDHM (pyStrip s) = none)) :
    parse_weibo_time s now = none := by
  simp only [parse_weibo_time]
  rcases h with h | h | ⟨h1, h2, h3, h4, h5⟩ | ⟨h1, h2⟩ | ⟨h1, h2, h3⟩
    | ⟨h1, h2, h3, h4⟩ | ⟨h1, h2, h3, h4, h5⟩ | ⟨h1, h2, h3, h4, h5, h6, h7⟩
    | ⟨h1, h2, h3, h4, h5, h6, h7⟩ | ⟨h1, h2, h3, h4, h5, h6, h7⟩
  · rw [if_pos (Or.inl h)]
  · rw [if_pos (Or.inr h)]
  · by_cases he : pyStrip s = "" ∨ pyStrip s = "未知时间"
    · rw [if_pos he]
    · rw [if_neg he, if_neg (by rw [h1]; exact Bool.false_ne_true),
        if_neg (by rw [h2]; exact Bool.false_ne_true),
        if_neg (by rw [h3]; exact Bool.false_ne_true),
        if_neg (by rw [h4]; exact Bool.false_ne_true),
        if_neg (by rw [h5]; exact Bool.false_ne_true)]
  · rw [if_neg (pyStrip_guard h1 (by decide) (by decide)), if_pos h1, h2]
  · rw [if_neg (pyStrip_guard h2 (by decide) (by decide)),
      if_neg (by rw [h1]; exact Bool.false_ne_true), if_pos h2, h3]
  · rw [if_neg (pyStrip_guard h3 (by decide) (by decide)),
      if_neg (by rw [h1]; exact Bool.false_ne_true),
      if_neg (by rw [h2]; exact Bool.false_ne_true), if_pos h3, h4]
  · rw [if_neg (pyStrip_guard h4 (by decide) (by decide)),
      if_neg (by rw [h1]; exact Bool.false_ne_true),
      if_neg (by rw [h2]; exact Bool.false_ne_true),
      if_neg (by rw [h3]; exact Bool.false_ne_true), if_pos h4, h5]
  · rw [if_neg (pyStrip_guard h5 (by decide) (by decide)),
      if_neg (by rw [h1]; exact Bool.false_ne_true),
      if_neg (by rw [h2]; exact Bool.false_ne_true),
      if_neg (by rw [h3]; exact Bool.false_ne_true),
      if_neg (by rw [h4]; exact Bool.false_ne_true), if_pos h5,
      if_neg h6, if_neg h7]
  · rw [if_neg (pyStrip_guard h5 (by decide) (by decide)),
      if_neg (by rw [h1]; exact Bool.false_ne_true),
      if_neg (by rw [h2]; exact Bool.false_ne_true),
      if_neg (by rw [h3]; exact Bool.false_ne_true),
      if_neg (by rw [h4]; exact Bool.false_ne_true), if_pos h5,
      if_pos h6, h7]
  · rw [if_neg (pyStrip_guard h5 (by decide) (by decide)),
      if_neg (by rw [h1]; exact Bool.false_ne_true),
      if_neg (by rw [h2]; exact Bool.false_ne_true),
      if_neg (by rw [h3]; exact Bool.false_ne_true),
      if_neg (by rw [h4]; exact Bool.false_ne_true), if_pos h5,
      if_neg (by rw [h6]; omega), if_pos h6, h7]

theorem C3_unrecognized_yields_none_witness :
    parse_weibo_time "未知时间" 0 = none
    ∧ parse_weibo_time "hello" 0 = none
    ∧ parse_weibo_time "x分钟前" 0 = none
    ∧ parse_weibo_time "y小时前" 0 = none
    ∧ parse_weibo_time "今天 abc" 0 = none
    ∧ parse_weibo_time "昨天 25:00" 0 = none
    ∧ parse_weibo_time "1-2" 0 = none
    ∧ parse_weibo_time "2024-5-23 12:34" 0 = none
    ∧ parse_weibo_time "13-45 12:34" 0 = none
    ∧ parse_weibo_time "2024-13-01 12:34" 0 = none :=
  ⟨C3_unrecognized_yields_none "未知时间" 0 (Or.inr (Or.inl (by decide))),
   C3_unrecognized_yields_none "hello" 0 (Or.inr (Or.inr (Or.inl (by decide)))),
   C3_unrecognized_yields_none "x分钟前" 0
     (Or.inr (Or.inr (Or.inr (Or.inl (by decide))))),
   C3_unrecognized_yields_none "y小时前" 0
     (Or.inr (Or.inr (Or.inr (Or.inr (Or.inl (by decide)))))),
   C3_unrecognized_yields_none "今天 abc" 0
     (Or.inr (Or.inr (Or.inr (Or.inr (Or.inr (Or.inl (by decide))))))),
   C3_unrecognized_yields_none "昨天 25:00" 0
     (Or.inr (Or.inr (Or.inr (Or.inr (Or.inr (Or.inr (Or.inl (by decide)))))))),
   C3_unrecognized_yields_none "1-2" 0
     (Or.inr (Or.inr (Or.inr (Or.inr (Or.inr (Or.inr (Or.inr (Or.inl (by decide))))))))),
   C3_unrecognized_yields_none "2024-5-23 12:34" 0
     (Or.inr (Or.inr (Or.inr (Or.inr (Or.inr (Or.inr (Or.inr (Or.inl (by decide))))))))),
   C3_unrecognized_yields_none "13-45 12:34" 0
     (Or.inr (Or.inr (Or.inr (Or.inr (Or.inr (Or.inr (Or.inr (Or.inr (Or.inl (by decide)))))))))),
   C3_unrecognized_yields_none "2024-13-01 12:34" 0
     (Or.inr (Or.inr (Or.inr (Or.inr (Or.inr (Or.inr (Or.inr (Or.inr (Or.inr (by decide))))))))))⟩

/-! ## Dictionary lemmas -/

theorem dictGet_cons {α : Type} (p : String × α) (m : List (String × α)) (k : String) :
    dictGet (p :: m) k = if p.1 == k then some p.2 else dictGet m k := by
  unfold dictGet
  rw [List.find?_cons]
  by_cases h : p.1 == k
  · simp [h]
  · have hb : (p.1 == k) = false := by simpa using h
    simp [hb, dictGet]

theorem dictGet_map_overwrite_self {α : Type} (k : String) (v : α) :
    ∀ m : List (String × α), m.any (fun p => p.1 == k) = true →
      dictGet (m.map (fun p => if p.1 == k then (k, v) else p)) k = some v := by
  intro m
  induction m with
  | nil => intro h; simp at h
  | cons p rest ih =>
    intro h
    simp only [List.map_cons]
    by_cases hp : p.1 == k
    · rw [if_pos hp, dictGet_cons]
      simp
    · rw [if_neg hp, dictGet_cons, if_neg hp]
      apply ih
      simp only [List.any_cons, Bool.or_eq_true] at h
      rcases h with h | h
      · exact absurd h hp
      · exact h

theorem dictGet_map_overwrite_ne {α : Type} (k k2 : String) (v : α)
    (hne : (k == k2) = false) :
    ∀ m : List (String × α),
      dictGet (m.map (fun p => if p.1 == k then (k, v) else p)) k2 = dictGet m k2 := by
  intro m
  induction m with
  | nil => rfl
  | cons p rest ih =>
    simp only [List.map_cons]
    by_cases hp : p.1 == k
    · have hpk : p.1 = k := beq_iff_eq.mp hp
      rw [if_pos hp, dictGet_cons, dictGet_cons, if_neg (by rw [hne]; exact Bool.false_ne_true),
        if_neg (by rw [hpk, hne]; exact Bool.false_ne_true)]
      exact ih
    · rw [if_neg hp, dictGet_cons, dictGet_cons]
      by_cases hq : p.1 == k2
      · rw [if_pos hq, if_pos hq]
      · rw [if_neg hq, if_neg hq]
        exact ih

theorem dictGet_append {α : Type} (m1 m2 : List (String × α)) (k : String) :
    dictGet (m1 ++ m2) k = match dictGet m1 k with
      | some v => some v
      | none => dictGet m2 k := by
  induction m1 with
  | nil => rfl
  | cons p rest ih =>
    rw [List.cons_append, dictGet_cons, dictGet_cons]
    by_cases hp : p.1 == k
    · rw [if_pos hp, if_pos hp]
    · rw [if_neg hp, if_neg hp]
      exact ih

theorem dictGet_not_any {α : Type} (k : String) :
    ∀ m : List (String × α), m.any (fun p => p.1 == k) = false → dictGet m k = none := by
  intro m
  induction m with
  | nil => intro _; rfl
  | cons p rest ih =>
    intro h
    simp only [List.any_cons, Bool.or_eq_false_iff] at h
    rw [dictGet_cons, if_neg (by rw [h.1]; exact Bool.false_ne_true)]
    exact ih h.2

/-- Dictionary assignment followed by lookup: the assigned key reads the
new value, every other key is untouched. -/
theorem dictGet_dictInsert {α : Type} (k k2 : String) (v : α) (m : List (String × α)) :
    dictGet (dictInsert m k v) k2 = if k == k2 then some v else dictGet m k2 := by
  unfold dictInsert
  by_cases ha : m.any (fun p => p.1 == k)
  · rw [if_pos ha]
    by_cases hk : k == k2
    · have : k = k2 := beq_iff_eq.mp hk
      subst this
      rw [if_pos hk, dictGet_map_overwrite_self k v m ha]
    · rw [if_neg hk, dictGet_map_overwrite_ne k k2 v (Bool.not_eq_true _ ▸ hk) m]
  · rw [if_neg ha, dictGet_append]
    by_cases hk : k == k2
    · have hkk : k = k2 := beq_iff_eq.mp hk
      subst hkk
      rw [if_pos hk, dictGet_not_any k m (Bool.not_eq_true _ ▸ ha)]
      rw [dictGet_cons, if_pos (by simp)]
    · rw [if_neg hk]
      cases h : dictGet m k2 with
      | some v2 => rfl
      | none =>
        rw [dictGet_cons, if_neg hk]
        rfl

/-! ## Claim C5 -/

/-- The category of the last table row carrying the given keyword. -/
def lastOccurrence (rows : List (String × String)) (k : String) : Option String :=
  rows.foldl (fun acc r => if r.1 == k then some r.2 else acc) none

theorem load_classifications_get (k : String) :
    ∀ (rows m : List (String × String)),
      dictGet (rows.foldl (fun m r => dictInsert m r.1 r.2) m) k
        = rows.foldl (fun acc r => if r.1 == k then some r.2 else acc) (dictGet m k) := by
  intro rows
  induction rows with
  | nil => intro m; rfl
  | cons r rest ih =>
    intro m
    simp only [List.foldl_cons]
    rw [ih, dictGet_dictInsert]

/-- Claim C5 (counterexample): on the table `[("a","x"), ("a","y")]` the
claimed first-occurrence-wins contract would give category `"x"`, but
`load_keyword_classifications` maps `"a"` to `"y"`. -/
theorem C5_first_wins_cex :
    dictGet (load_keyword_classifications [("a", "x"), ("a", "y")]) "a" = some "y"
    ∧ (some "y" : Option String) ≠ some "x" := by decide

/-- Claim C5 (amended): for every table and keyword, the mapping built
by `load_keyword_classifications` returns the category of the keyword's
last occurrence in the table (last occurrence wins), and `none` for
absent keywords. -/
theorem C5_last_occurrence_wins (rows : List (String × String)) (k : String) :
    dictGet (load_keyword_classifications rows) k = lastOccurrence rows k := by
  unfold load_keyword_classifications lastOccurrence
  rw [load_classifications_get]
  rfl

/-! ## Claims C6, C7 -/

instance {ε α : Type} [DecidableEq ε] [DecidableEq α] : DecidableEq (Except ε α) := fun x y =>
  match x, y with
  | .ok a, .ok b =>
    if h : a = b then .isTrue (by rw [h])
    else .isFalse (by intro hc; injection hc with h2; exact h h2)
  | .error a, .error b =>
    if h : a = b then .isTrue (by rw [h])
    else .isFalse (by intro hc; injection hc with h2; exact h h2)
  | .ok _, .error _ => .isFalse (fun hc => Except.noConfusion hc)
  | .error _, .ok _ => .isFalse (fun hc => Except.noConfusion hc)

theorem fillDefaults_get (ds : List (String × PyVal)) :
    ∀ (c : Config) (k : String),
      dictGet (ds.foldl
        (fun cfg kv => if (dictGet cfg kv.1).isSome then cfg else dictInsert cfg kv.1 kv.2) c) k
        = match dictGet c k with
          | some v => some v
          | none => dictGet ds k := by
  induction ds with
  | nil =>
    intro c k
    simp only [List.foldl_nil]
    cases dictGet c k <;> rfl
  | cons kv rest ih =>
    intro c k
    simp only [List.foldl_cons]
    rw [dictGet_cons]
    by_cases h : (dictGet c kv.1).isSome
    · rw [if_pos h, ih]
      by_cases hk : kv.1 == k
      · have hkk : kv.1 = k := beq_iff_eq.mp hk
        obtain ⟨v, hv⟩ := Option.isSome_iff_exists.mp h
        rw [hkk] at hv
        simp [hv]
      · rw [if_neg hk]
    · rw [if_neg h, ih, dictGet_dictInsert]
      by_cases hk : kv.1 == k
      · have hkk : kv.1 = k := beq_iff_eq.mp hk
        have hc : dictGet c k = none := by
          rw [← hkk]
          exact Option.not_isSome_iff_eq_none.mp h
        simp [hk, hc]
      · rw [if_neg hk, if_neg hk]

/-- Lookup after the repair loop of `load_config`: an existing entry is
kept, a missing one falls back to the `default_config` entry. -/
theorem fillDefaults_spec (c : Config) (k : String) :
    dictGet (fillDefaults c) k = match dictGet c k with
      | some v => some v
      | none => dictGet default_config k :=
  fillDefaults_get default_config c k

/-- Claim C6 (counterexample): for the run whose stored configuration is
the empty table, `min_score` is absent, yet the Scorer is invoked with
`min_score = 80` (the `load_config` default), not zero. -/
theorem C6_absent_threshold_cex :
    dictGet ([] : Config) "min_score" = none
    ∧ analyze_thresholds (load_config (.valid [])).1
        = .ok (.int 80, .int 500, .int 0, .int 0)
    ∧ PyVal.int 80 ≠ PyVal.int 0 := by decide

/-- Claim C6 (amended): when `min_comments` or `min_forwards` is absent
from the configuration, the Scorer receives zero for it; but an absent
`min_score` or `min_likes` is filled by `load_config` with the defaults
80 and 500, not zero. -/
theorem C6_absent_threshold_defaults (c : Config)
    (hmc : dictGet c "min_comments" = none)
    (hmf : dictGet c "min_forwards" = none) :
    analyze_thresholds (fillDefaults c)
      = .ok (dictGetD (fillDefaults c) "min_score" .noneVal,
             dictGetD (fillDefaults c) "min_likes" .noneVal, .int 0, .int 0)
    ∧ (dictGet c "min_score" = none →
        dictGet (fillDefaults c) "min_score" = some (.int 80))
    ∧ (dictGet c "min_likes" = none →
        dictGet (fillDefaults c) "min_likes" = some (.int 500)) := by
  have hc : dictGet (fillDefaults c) "min_comments" = none := by
    rw [fillDefaults_spec, hmc]
    decide
  have hf : dictGet (fillDefaults c) "min_forwards" = none := by
    rw [fillDefaults_spec, hmf]
    decide
  have hs : (dictGet (fillDefaults c) "min_score").isSome := by
    rw [fillDefaults_spec]
    cases dictGet c "min_score" with
    | some v => rfl
    | none => decide
  have hl : (dictGet (fillDefaults c) "min_likes").isSome := by
    rw [fillDefaults_spec]
    cases dictGet c "min_likes" with
    | some v => rfl
    | none => decide
  refine ⟨?_, ?_, ?_⟩
  · obtain ⟨a, ha⟩ := Option.isSome_iff_exists.mp hs
    obtain ⟨b, hb⟩ := Option.isSome_iff_exists.mp hl
    simp only [analyze_thresholds, cfgItem, dictGetD, ha, hb, hc, hf]
    rfl
  · intro h
    rw [fillDefaults_spec, h]
    decide
  · intro h
    rw [fillDefaults_spec, h]
    decide

theorem C6_absent_threshold_defaults_witness :
    (analyze_thresholds (fillDefaults [])
      = .ok (dictGetD (fillDefaults []) "min_score" .noneVal,
             dictGetD (fillDefaults []) "min_likes" .noneVal, .int 0, .int 0)
    ∧ (dictGet ([] : Config) "min_score" = none →
        dictGet (fillDefaults []) "min_score" = some (.int 80))
    ∧ (dictGet ([] : Config) "min_likes" = none →
        dictGet (fillDefaults []) "min_likes" = some (.int 500))) :=
  C6_absent_threshold_defaults [] (by decide) (by decide)

/-- Claim C7 (counterexample): for a stored configuration containing
only `cookie` — so every other recognized key is missing — `load_config`
returns the repaired configuration (`min_score` filled to 80) but writes
nothing back to `config.json`; for a corrupt file it returns the
defaults and also writes nothing. -/
theorem C7_persist_repair_cex :
    dictGet ((load_config (.valid [("cookie", .str "x")])).1) "min_score" = some (.int 80)
    ∧ (load_config (.valid [("cookie", .str "x")])).2 = []
    ∧ (load_config .corrupt).1 = default_config
    ∧ (load_config .corrupt).2 = [] := by decide

/-- Claim C7 (amended): for an existing parseable config file, every
recognized key is present in the returned configuration (missing ones
filled from the documented defaults), but the repaired configuration is
not persisted back; a corrupt file falls back to the defaults without
persisting; only a missing file causes a write, of the pure defaults. -/
theorem C7_repair_without_persist (c : Config) (k : String)
    (hk : (dictGet default_config k).isSome = true) :
    (dictGet ((load_config (.valid c)).1) k).isSome = true
    ∧ (load_config (.valid c)).2 = []
    ∧ load_config .corrupt = (default_config, [])
    ∧ load_config .absent = (default_config, [default_config]) := by
  have h1 : load_config (.valid c) = (fillDefaults c, []) := rfl
  refine ⟨?_, by rw [h1], rfl, rfl⟩
  rw [h1]
  dsimp only
  rw [fillDefaults_spec]
  cases dictGet c k with
  | some v => rfl
  | none => exact hk

theorem C7_repair_without_persist_witness :
    ((dictGet ((load_config (.valid [("cookie", .str "x")])).1) "min_likes").isSome = true
    ∧ (load_config (.valid [("cookie", .str "x")])).2 = []
    ∧ load_config .corrupt = (default_config, [])
    ∧ load_config .absent = (default_config, [default_config])) :=
  C7_repair_without_persist [("cookie", .str "x")] "min_likes" (by decide)

/-! ## Claim C8 -/

theorem foldl_ext {α β : Type} (f g : β → α → β) (h : ∀ b a, f b a = g b a) :
    ∀ (l : List α) (init : β), l.foldl f init = l.foldl g init := by
  intro l
  induction l with
  | nil => intro init; rfl
  | cons x rest ih =>
    intro init
    rw [List.foldl_cons, List.foldl_cons, h, ih]

theorem foldl_append_flatMap {α β : Type} (g : α → List β) :
    ∀ (l : List α) (init : List β),
      l.foldl (fun acc x => acc ++ g x) init = init ++ l.flatMap g := by
  intro l
  induction l with
  | nil => intro init; simp
  | cons x rest ih =>
    intro init
    simp only [List.foldl_cons, List.flatMap_cons, ih, List.append_assoc]

/-- Claim C8: every unit's error is caught and isolated.  The
(user, keyword) loop of `main` equals the unit-wise concatenation in
which an erroring unit contributes nothing — so every unit is still
processed, in order, whatever any single unit raises; and any error
raised inside `process_keyword`'s body is caught by its catch-all
handler and becomes the `None` result for that keyword only. -/
theorem C8_per_unit_error_isolation :
    (∀ (extract : String → Option String)
       (fetch : String → String → Except String (List Post))
       (user_urls keywords : List String),
      main_user_keyword_loop extract fetch user_urls keywords
        = (user_urls.enum).flatMap (fun p =>
            keywords.flatMap (fun kw =>
              process_user_keyword fetch (user_id_of extract p.1 p.2) p.2 kw)))
    ∧ (∀ (kw : String) (cfg : Config) (ktt : List (String × String))
       (fetchK : PyVal → PyVal → Except String (List Post))
       (analyze : List Post → PyVal × PyVal × PyVal × PyVal → Except String (Option (List Post)))
       (now_dt : Instant) (e : String),
      (process_keyword_body kw cfg ktt fetchK analyze now_dt).1 = .error e →
      (process_keyword kw cfg ktt fetchK analyze now_dt).1 = none) := by
  constructor
  · intro extract fetch user_urls keywords
    unfold main_user_keyword_loop
    have hinner : ∀ (uid url : String) (acc : List Post),
        keywords.foldl (fun acc2 kw => acc2 ++ process_user_keyword fetch uid url kw) acc
          = acc ++ keywords.flatMap (fun kw => process_user_keyword fetch uid url kw) :=
      fun uid url acc => foldl_append_flatMap _ keywords acc
    calc (user_urls.enum).foldl
          (fun acc p =>
            keywords.foldl
              (fun acc2 kw => acc2 ++ process_user_keyword fetch (user_id_of extract p.1 p.2) p.2 kw)
              acc) []
        = (user_urls.enum).foldl
            (fun acc p =>
              acc ++ keywords.flatMap
                (fun kw => process_user_keyword fetch (user_id_of extract p.1 p.2) p.2 kw)) [] := by
          exact foldl_ext _ _ (fun acc p => hinner _ _ acc) _ _
      _ = _ := by
          rw [foldl_append_flatMap]
          simp
  · intro kw cfg ktt fetchK analyze now_dt e h
    unfold process_keyword
    rcases hp : process_keyword_body kw cfg ktt fetchK analyze now_dt with ⟨r, n⟩
    rw [hp] at h
    have hr : r = .error e := h
    rw [hr]

theorem C8_per_unit_error_isolation_witness :
    (process_keyword "k" [] []
      (fun _ _ => .ok []) (fun _ _ => .ok none) 0).1 = none :=
  C8_per_unit_error_isolation.2 "k" [] []
    (fun _ _ => .ok []) (fun _ _ => .ok none) 0 "KeyError: default_pages" rfl

/-! ## Claim C9 -/

/-- Claim C9: no row assembled by `clean_and_reorder_dataframe` carries
any of the dropped internal columns — the author internal identifier
(`user_id`), raw media URLs (`image_urls`), the cached path list
(`local_image_paths`), or the fetch-source marker (`source`): none of
them is a column of the output, and no output row holds a cell keyed by
one of them. -/
theorem clean_cols_eq (df : DataFrame) :
    (clean_and_reorder_dataframe df).cols = existing_columns (cleanBase df) := rfl

theorem clean_rows_eq (df : DataFrame) :
    (clean_and_reorder_dataframe df).rows
      = (cleanBase df).rows.map
          (fun r => (existing_columns (cleanBase df)).map (fun c => (c, rowGetD r c))) := rfl

theorem mem_of_existing {df : DataFrame} {c : String}
    (h : c ∈ existing_columns df) : c ∈ desired_columns :=
  (List.mem_filter.mp h).1

theorem clean_contains_false (df : DataFrame) (c : String)
    (hc : c ∉ desired_columns) :
    (clean_and_reorder_dataframe df).cols.contains c = false := by
  rw [clean_cols_eq]
  cases hb : (existing_columns (cleanBase df)).contains c with
  | false => rfl
  | true => exact absurd (mem_of_existing (List.elem_iff.mp hb)) hc

theorem C9_internal_columns_absent (df : DataFrame) :
    (clean_and_reorder_dataframe df).cols.contains "user_id" = false
    ∧ (clean_and_reorder_dataframe df).cols.contains "image_urls" = false
    ∧ (clean_and_reorder_dataframe df).cols.contains "local_image_paths" = false
    ∧ (clean_and_reorder_dataframe df).cols.contains "source" = false
    ∧ (clean_and_reorder_dataframe df).rows.all
        (fun r => r.all (fun p => !columns_to_drop.contains p.1)) = true := by
  refine ⟨clean_contains_false df _ (by decide), clean_contains_false df _ (by decide),
    clean_contains_false df _ (by decide), clean_contains_false df _ (by decide), ?_⟩
  have hdisj : ∀ c ∈ desired_columns, columns_to_drop.contains c = false := by decide
  rw [clean_rows_eq, List.all_eq_true]
  intro r hr
  obtain ⟨r0, _, hr0⟩ := List.mem_map.mp hr
  rw [← hr0, List.all_eq_true]
  intro p hp
  obtain ⟨c, hcmem, hcp⟩ := List.mem_map.mp hp
  rw [← hcp]
  simp only [Bool.not_eq_eq_eq_not, Bool.not_true]
  exact hdisj c (mem_of_existing hcmem)

/-! ## Claim C4 -/

/-- A concrete surviving post for the single-keyword run. -/
def postC4 : Post :=
  { weibo_id := "1", publish_time := "5分钟前", has_images := true, attitudes_count := 10 }

/-- A concrete configuration as `load_config` would produce it, with
`start_page` and the optional thresholds present. -/
def cfgC4 : Config :=
  fillDefaults [("start_page", .int 1), ("min_comments", .int 0), ("min_forwards", .int 0)]

/-- Claim C4 (evaluation of the failing path): the single-keyword run
sorts by the `likes` column, but `clean_and_reorder_dataframe` projects
onto a fixed column list that never includes `likes`, so for every
input the sort raises `KeyError: likes`; concretely, a keyword unit
whose fetch and analysis both succeed with one surviving recent post
still ends in the catch-all handler and returns `None` — no sorted
output is ever assembled on this path. -/
theorem C4_likes_sort_keyerror :
    (∀ df : DataFrame,
      sort_values (clean_and_reorder_dataframe df) "likes"
        = .error ("KeyError: " ++ "likes"))
    ∧ process_keyword "A" cfgC4 []
        (fun _ _ => .ok [postC4]) (fun ps _ => .ok (some ps)) 0 = (none, 1) := by
  constructor
  · intro df
    have h := clean_contains_false df "likes" (by decide)
    unfold sort_values
    rw [h]
    rfl
  · decide

/-! ## Claim C10 -/

/-- Claim C10: `process_keyword` reads `config["start_page"]`
unconditionally, and `start_page` is not among the defaults that
`load_config` fills in; so for every configuration lacking
`start_page` — including any such configuration after the default
repair — the keyword unit raises `KeyError` before any fetch occurs
(fetch count 0) and the catch-all handler records it as `None`. -/
theorem C10_missing_start_page (cfg : Config) (kw : String)
    (ktt : List (String × String))
    (fetchK : PyVal → PyVal → Except String (List Post))
    (analyze : List Post → PyVal × PyVal × PyVal × PyVal → Except String (Option (List Post)))
    (now_dt : Instant)
    (hsp : dictGet cfg "start_page" = none) :
    dictGet default_config "start_page" = none
    ∧ dictGet (fillDefaults cfg) "start_page" = none
    ∧ process_keyword kw (fillDefaults cfg) ktt fetchK analyze now_dt = (none, 0) := by
  have hd : dictGet default_config "start_page" = none := by decide
  have hf : dictGet (fillDefaults cfg) "start_page" = none := by
    rw [fillDefaults_spec, hsp]
    exact hd
  refine ⟨hd, hf, ?_⟩
  unfold process_keyword process_keyword_body
  cases hdp : dictGet (fillDefaults cfg) "default_pages" with
  | none => simp only [cfgItem, hdp]
  | some v => simp only [cfgItem, hdp, hf]

theorem C10_missing_start_page_witness :
    dictGet default_config "start_page" = none
    ∧ dictGet (fillDefaults []) "start_page" = none
    ∧ process_keyword "x" (fillDefaults []) []
        (fun _ _ => .ok []) (fun _ _ => .ok none) 0 = (none, 0) :=
  C10_missing_start_page [] "x" [] (fun _ _ => .ok []) (fun _ _ => .ok none) 0 rfl

end Weibo
